import Mathlib

/-!
Verification of the summary-freshness / prompt-assembly core of the
museum-comments AI service.

The Python sources embedded here are:
* `src/app/services/ai_service.py` — weak-signal detection and prompt assembly
  (`_is_comments_too_short`, `_build_prompt_with_context`,
  `generate_summary_async`, `generate_incremental_summary_async`);
* `src/app/api/routes.py` — the `summarize` request handler and the
  `tts` endpoint;
* `src/app/services/supabase_client.py` — the comment/collection store
  accessors and the timestamp parser `_parse_ts`.

External collaborators (the generative-text model, the datastore write, the
speech synthesizer, `datetime.fromisoformat`) are passed in as function
parameters; timestamps are modelled as natural numbers (only their order is
ever used by the code).  Three store accessors imported by `routes.py`
(`fetch_comment_count`, `fetch_new_comments_after_timestamp`,
`fetch_collection_context`) are not present under `src/`; they are modelled
from the spec and marked as such.
-/

namespace SwarasanaAI

/-! ### Python string primitives

Lean's `String.trim`, `String.toLower`, `String.contains`, `String.replace`
and `String.splitOn` go through `Substring`/`String.Pos` machinery that the
kernel cannot evaluate on concrete inputs, so the Python string operations
used by the sources are embedded as executable list-of-characters functions
with the same semantics. -/

/-- Python `s.strip()`: drop leading and trailing whitespace. -/
def pyStrip (s : String) : String :=
  String.mk (((s.toList.dropWhile Char.isWhitespace).reverse.dropWhile
    Char.isWhitespace).reverse)

/-- Python `s.lower()` (ASCII case folding suffices for the format field). -/
def pyLower (s : String) : String :=
  String.mk (s.toList.map Char.toLower)

/-- Python `c in s` for a single character `c`. -/
def pyHasChar (s : String) (c : Char) : Bool :=
  s.toList.contains c

/-- Python `s.split(sep)` for a one-character separator. -/
def pySplit (s : String) (sep : Char) : List String :=
  (s.toList.splitOnP (fun x => x = sep)).map String.mk

/-- Python `s.replace(old, new)` for a one-character needle (the only use in
the sources is `value.replace("Z", "+00:00")`). -/
def pyReplace (s : String) (old : Char) (new : String) : String :=
  String.mk (s.toList.flatMap (fun c => if c = old then new.toList else [c]))

/-- Read-only collection metadata (`fetch_collection_context` row): `name` and
`artist_explanation` columns.  A Python `None`/empty dict is `Option.none`. -/
structure Ctx where
  name : String
  artist_explanation : String
deriving DecidableEq, Repr

/-- The store state visible to one `summarize` request: the collection's
`ai_summary_text` and `last_summary_generated_at` columns, its comments
(`comment_text`, `created_at`) and its context row. -/
structure Store where
  summaryText : Option String
  generatedAt : Option Nat
  comments : List (String × Nat)
  context : Option Ctx
deriving DecidableEq, Repr

/-! ### Weak-signal detection (`ai_service._is_comments_too_short`) -/

/-- Number of whitespace-separated tokens of a comment:
Python `len(c.strip().split())`. -/
def tokenCount (c : String) : Nat :=
  (((pyStrip c).toList.splitOnP (fun ch => ch.isWhitespace)).filter
    (fun t => t ≠ [])).length

/-- `ai_service._is_comments_too_short`.  Python compares
`avg_length < 15` and `short_comments >= len(comments) * 0.7`; on every
feasible list length the float comparisons coincide with the exact rational
ones, embedded here as `total < 15 * n` and `7 * n ≤ 10 * short`. -/
def _is_comments_too_short (comments : List String) : Bool :=
  match comments with
  | [] => true
  | _ =>
    let total_length := (comments.map (fun c => (pyStrip c).length)).sum
    let short_comments := (comments.filter (fun c => tokenCount c ≤ 2)).length
    decide (total_length < 15 * comments.length) ||
      decide (7 * comments.length ≤ 10 * short_comments)

/-! ### Prompt assembly (`ai_service._build_prompt_with_context` and the
incremental prompt built inside `generate_incremental_summary_async`) -/

/-- Python `explanation[:200] + "..." if len(explanation) > 200 else explanation`. -/
def truncate_explanation (explanation : String) : String :=
  if 200 < explanation.length then explanation.take 200 ++ "..." else explanation

/-- Closing sentence of the full-path context note (source:
`_build_prompt_with_context`). -/
def fullCtxInstr : String :=
  "\n\nGunakan konteks ini dengan bijak untuk memperkaya narasi ketika komentar pengunjung terlalu singkat, namun tetap fokus pada respons mereka."

/-- Context note appended by `_build_prompt_with_context` (empty string when
the source appends nothing). -/
def full_context_note (comments : List String) (ctx : Option Ctx) : String :=
  if _is_comments_too_short comments then
    match ctx with
    | none => ""
    | some cc =>
      let name := pyStrip cc.name
      let explanation := pyStrip cc.artist_explanation
      if name = "" ∧ explanation = "" then ""
      else
        (if name = "" then "" else "\n\nKonteks: Karya ini berjudul \"" ++ name ++ "\"")
          ++ (if explanation = "" then "" else ". " ++ truncate_explanation explanation)
          ++ fullCtxInstr
  else ""

/-- `ai_service._build_prompt_with_context`. -/
def _build_prompt_with_context (comments : List String) (ctx : Option Ctx) : String :=
  String.intercalate "\n" comments ++ full_context_note comments ctx

/-- Context note inserted by `generate_incremental_summary_async` (empty
string when the source appends nothing).  Unlike the full path, the source
always starts it with `"\n\nKonteks: "` and never appends the
focus-on-visitor-responses sentence. -/
def incremental_note (new_comments : List String) (ctx : Option Ctx) : String :=
  if _is_comments_too_short new_comments then
    match ctx with
    | none => ""
    | some cc =>
      let name := pyStrip cc.name
      let explanation := pyStrip cc.artist_explanation
      if name = "" ∧ explanation = "" then ""
      else
        "\n\nKonteks: "
          ++ (if name = "" then "" else "Karya ini berjudul \"" ++ name ++ "\"")
          ++ (if explanation = "" then "" else ". " ++ truncate_explanation explanation)
  else ""

/-- Fixed closing instruction of the incremental prompt (source:
`generate_incremental_summary_async`). -/
def incrInstr : String :=
  "Berdasarkan ringkasan sebelumnya dan komentar baru di atas, buatlah ringkasan yang diperbarui yang menggabungkan informasi lama dan baru. Ikuti ketentuan yang sama: naratif, maksimal 150 kata, hangat dan inklusif. Jika komentar baru terlalu singkat, gunakan konteks yang tersedia dengan bijak."

/-- The prompt `generate_incremental_summary_async` sends to the model:
`combined_text` (previous-summary block, new-comments block, optional context
note) followed by the fixed instruction. -/
def incremental_prompt (previous_summary : String) (new_comments : List String)
    (ctx : Option Ctx) : String :=
  "Ringkasan sebelumnya:\n" ++ previous_summary ++ "\n\nKomentar baru:\n"
    ++ String.intercalate "\n" new_comments
    ++ incremental_note new_comments ctx
    ++ "\n\n" ++ incrInstr

/-! ### Store accessors (`supabase_client.py`; three of them modelled from the
spec because they are absent from `src/`) -/

/-- Descending insertion of a comment row by `created_at` (models the
datastore's `order("created_at", desc=True)`). -/
def insertDesc (x : String × Nat) : List (String × Nat) → List (String × Nat)
  | [] => [x]
  | y :: ys => if y.2 ≤ x.2 then x :: y :: ys else y :: insertDesc x ys

/-- Sort comment rows newest-first by `created_at`. -/
def sortDesc : List (String × Nat) → List (String × Nat)
  | [] => []
  | x :: xs => insertDesc x (sortDesc xs)

/-- `supabase_client.fetch_latest_comments`: newest-first, `limit` rows, then
keep only truthy `comment_text` (the list comprehension filters falsy texts). -/
def fetch_latest_comments (st : Store) (limit : Nat) : List String :=
  ((sortDesc st.comments).take limit).filterMap
    (fun r => if r.1 = "" then none else some r.1)

/-- Modelled from the spec: `fetch_comment_count` is imported by `routes.py`
but absent from `src/`; the spec's collaborator interface is
`fetchCommentCount(id) -> int`, the total number of comments of the
collection. -/
def fetch_comment_count (st : Store) : Nat :=
  st.comments.length

/-- Modelled from the spec: `fetch_new_comments_after_timestamp` is imported
by `routes.py` but absent from `src/`; the spec says "fetch comments created
strictly after `summary_generated_at` (cap 50)", newest-first. -/
def fetch_new_comments_after_timestamp (st : Store) (ts : Nat) (limit : Nat) :
    List String :=
  ((sortDesc (st.comments.filter (fun r => ts < r.2))).take limit).map
    (fun r => r.1)

/-- Modelled from the spec: `fetch_collection_context` is imported by
`routes.py` but absent from `src/`; the spec's collaborator interface is
`fetchCollectionContext(id) -> (name?, explanation?)`. -/
def fetch_collection_context (st : Store) : Option Ctx :=
  st.context

/-! ### Generation services (`ai_service.py`)

The Gemini call `_model.generate_content` is the external collaborator: it is
a parameter `model : String → Except String String`, where `Except.error`
models the call raising and `Except.ok t` models a response whose `.text` is
`t`.  Each service returns its result together with the list of prompts it
sent to the model. -/

/-- Normalization of one `generate_content` call shared by both services: a
raised exception and an empty `resp.text` both become an `AIServiceError`; a
non-empty response is returned `.strip()`ped. -/
def wrap_ai_response (r : Except String String) : Except String String :=
  match r with
  | Except.error e => Except.error e
  | Except.ok t => if t = "" then Except.error "Empty AI response" else Except.ok (pyStrip t)

/-- `ai_service.generate_summary_async`: guard, prompt assembly, model call,
empty-response check, `.strip()` of the response; every failure is an
`AIServiceError`. -/
def generate_summary_async (model : String → Except String String)
    (comments : List String) (ctx : Option Ctx) :
    Except String String × List String :=
  if comments = [] then (Except.error "No comments provided", [])
  else (wrap_ai_response (model (_build_prompt_with_context comments ctx)),
    [_build_prompt_with_context comments ctx])

/-- `ai_service.generate_incremental_summary_async`: guard, combined prompt,
model call, empty-response check, `.strip()` of the response. -/
def generate_incremental_summary_async (model : String → Except String String)
    (previous_summary : String) (new_comments : List String) (ctx : Option Ctx) :
    Except String String × List String :=
  if new_comments = [] then (Except.error "No new comments provided", [])
  else (wrap_ai_response (model (incremental_prompt previous_summary new_comments ctx)),
    [incremental_prompt previous_summary new_comments ctx])

/-! ### The summarize endpoint (`routes.summarize`) -/

/-- Python `has_valid_summary = ai_summary_text and ai_summary_text.strip() != ""`
coerced to a truth value (`None` and `""` are falsy). -/
def has_valid_summary (t : Option String) : Bool :=
  match t with
  | none => false
  | some s => !(s = "") && !(pyStrip s = "")

/-- Result of one `summarize` request: the HTTP response (`Except.error` is an
`HTTPException` with the given status code, `Except.ok` the returned summary
string), the prompts sent to the generation model during the request, and the
store state after the request. -/
structure SummarizeResult where
  response : Except Nat String
  genPrompts : List String
  store : Store
deriving Repr

/-- `routes.summarize`.  `model` is the generation collaborator, `updateOk`
says whether the store write `update_collection_summary` succeeds (when it
raises, the handler logs and swallows the error), `now` is the write
timestamp. -/
def summarize (model : String → Except String String) (updateOk : Bool)
    (now : Nat) (st : Store) : SummarizeResult :=
  if st.summaryText = none ∧ st.generatedAt = none then
    ⟨Except.error 404, [], st⟩
  else if has_valid_summary st.summaryText = false then
    if fetch_comment_count st < 3 then ⟨Except.ok "", [], st⟩
    else if (fetch_latest_comments st 50).length < 3 then ⟨Except.ok "", [], st⟩
    else
      match generate_summary_async model (fetch_latest_comments st 50)
        (fetch_collection_context st) with
      | (Except.error _, prompts) => ⟨Except.error 502, prompts, st⟩
      | (Except.ok summary, prompts) =>
        ⟨Except.ok summary, prompts,
          if updateOk then
            { st with summaryText := some summary, generatedAt := some now }
          else st⟩
  else
    match st.generatedAt with
    | none => ⟨Except.ok (st.summaryText.getD ""), [], st⟩
    | some ts =>
      if fetch_new_comments_after_timestamp st ts 50 = [] then
        ⟨Except.ok (st.summaryText.getD ""), [], st⟩
      else
        match generate_incremental_summary_async model (st.summaryText.getD "")
          (fetch_new_comments_after_timestamp st ts 50)
          (fetch_collection_context st) with
        | (Except.error _, prompts) => ⟨Except.error 502, prompts, st⟩
        | (Except.ok updated, prompts) =>
          ⟨Except.ok updated, prompts,
            if updateOk then
              { st with summaryText := some updated, generatedAt := some now }
            else st⟩

/-! ### Timestamp parsing (`supabase_client._parse_ts`)

`datetime.fromisoformat` is the external collaborator, modelled as
`fromisoformat : String → Except PyExc δ` for an abstract datetime type `δ`:
`Except.error (PyExc.valueError m)` models it raising `ValueError` (the only
exception it raises on a `str` argument), `PyExc.otherExc` any other
exception. -/

/-- A Python exception, split by whether it is a `ValueError`. -/
inductive PyExc where
  | valueError : String → PyExc
  | otherExc : String → PyExc
deriving DecidableEq, Repr

/-- One unit of the timestamp regex: a digit (`\d`), a literal character, or
the sign class `[+-]`. -/
inductive Pat where
  | digit : Pat
  | lit : Char → Pat
  | sign : Pat
deriving DecidableEq, Repr

/-- Match a fixed pattern against a prefix of `l`, returning the matched
characters and the rest. -/
def matchPats : List Pat → List Char → Option (List Char × List Char)
  | [], l => some ([], l)
  | _ :: _, [] => none
  | p :: ps, c :: cs =>
    let ok := match p with
      | Pat.digit => c.isDigit
      | Pat.lit d => c = d
      | Pat.sign => c = '+' || c = '-'
    if ok then (matchPats ps cs).map (fun m => (c :: m.1, m.2)) else none

/-- `\d\d\d\d-\d\d-\d\dT\d\d:\d\d:\d\d` — the first capture group of the
timestamp regex in `_parse_ts`. -/
def basePat : List Pat :=
  [Pat.digit, Pat.digit, Pat.digit, Pat.digit, Pat.lit '-', Pat.digit, Pat.digit,
   Pat.lit '-', Pat.digit, Pat.digit, Pat.lit 'T', Pat.digit, Pat.digit,
   Pat.lit ':', Pat.digit, Pat.digit, Pat.lit ':', Pat.digit, Pat.digit]

/-- `[+-]\d\d:\d\d` — the timezone capture group of the timestamp regex. -/
def tzPat : List Pat :=
  [Pat.sign, Pat.digit, Pat.digit, Pat.lit ':', Pat.digit, Pat.digit]

/-- The groups of `re.match` of the `_parse_ts` regex
(base group)`\.`(digit run)(timezone group) against `v`: `re.match` anchors at
the start only, so trailing text is allowed, and the greedy `\d+` takes the
maximal digit run (the following `[+-]` is not a digit, so no backtracking
can succeed otherwise). -/
def tsRegexGroups (v : String) : Option (String × String × String) :=
  match matchPats basePat v.toList with
  | none => none
  | some (base, rest) =>
    match rest with
    | '.' :: rest2 =>
      let micro := rest2.takeWhile Char.isDigit
      if micro.isEmpty then none
      else
        match matchPats tzPat (rest2.dropWhile Char.isDigit) with
        | some (tz, _) => some (String.mk base, String.mk micro, String.mk tz)
        | none => none
    | _ => none

/-- Python `microsec.ljust(6, "0")[:6]`. -/
def ljustZeros6 (micro : String) : String :=
  String.mk ((micro.toList ++ List.replicate (6 - micro.length) '0').take 6)

/-- Number of occurrences of a character: Python `v.count("-")` for a
one-character needle. -/
def countChar (v : String) (c : Char) : Nat :=
  (v.toList.filter (fun x => x = c)).length

/-- The final fallback block of `_parse_ts` ("try parsing without
microseconds"): runs under a bare `except: pass`, so any failure yields
`none`; when `"." not in v` the `try` body does nothing and the function
falls through to `return None`. -/
def parse_ts_fallback {δ : Type} (fromisoformat : String → Except PyExc δ)
    (v : String) : Option δ :=
  if pyHasChar v '.' then
    let v_no_micro := ((pySplit v '.').headD "")
    let v_no_micro :=
      if pyHasChar v '+' then v_no_micro ++ "+" ++ ((pySplit v '+').getLastD "")
      else if 2 < countChar v '-' then
        let parts := pySplit v '-'
        String.intercalate "-" (parts.dropLast.dropLast) ++ "-" ++ (parts.getLastD "")
      else v_no_micro ++ "+00:00"
    match fromisoformat v_no_micro with
    | Except.ok dt => some dt
    | Except.error _ => none
  else none

/-- Body of `_parse_ts` for a non-falsy string argument, after the
`value.replace("Z", "+00:00")` normalization.  The outer handler catches only
`ValueError`, so any other exception from the first `fromisoformat` call
escapes; the two inner handlers are bare `except` clauses.  Note that after a
successful regex match the variable `v` is reassigned to the normalized
string before the final fallback runs. -/
def parse_ts_body {δ : Type} (fromisoformat : String → Except PyExc δ)
    (v : String) : Except PyExc (Option δ) :=
  match fromisoformat v with
  | Except.ok dt => Except.ok (some dt)
  | Except.error (PyExc.otherExc m) => Except.error (PyExc.otherExc m)
  | Except.error (PyExc.valueError _) =>
    match tsRegexGroups v with
    | some (base, micro, tz) =>
      let v2 := base ++ "." ++ ljustZeros6 micro ++ tz
      match fromisoformat v2 with
      | Except.ok dt => Except.ok (some dt)
      | Except.error _ => Except.ok (parse_ts_fallback fromisoformat v2)
    | none => Except.ok (parse_ts_fallback fromisoformat v)

/-- `supabase_client._parse_ts`.  `Except.ok` is a normal return,
`Except.error` an exception escaping the function; `if not value` catches
both `None` and the empty string. -/
def _parse_ts {δ : Type} (fromisoformat : String → Except PyExc δ)
    (value : Option String) : Except PyExc (Option δ) :=
  match value with
  | none => Except.ok none
  | some s =>
    if s = "" then Except.ok none
    else parse_ts_body fromisoformat (pyReplace s 'Z' "+00:00")

/-! ### The TTS endpoint (`routes.tts_endpoint` and
`audio_ai_service.synthesize_speech`)

`routes.tts_endpoint` calls
`synthesize_speech(text=..., lang=..., voice=..., voice_type=..., ogg=...)`,
but the definition of `synthesize_speech` in
`src/app/services/audio_ai_service.py` is
`async def synthesize_speech(text, lang="id-ID", voice=None, ogg=True)` — it
has no `voice_type` parameter.  In Python such a call raises `TypeError`
before the coroutine runs; the endpoint's `except AudioAIError` clause does
not catch `TypeError`, so the exception escapes the handler.  The embedding
models Python's keyword-argument check explicitly. -/

/-- Parameter names of `audio_ai_service.synthesize_speech`. -/
def synthesize_speech_params : List String :=
  ["text", "lang", "voice", "ogg"]

/-- Keyword arguments `routes.tts_endpoint` passes to `synthesize_speech`. -/
def tts_call_keywords : List String :=
  ["text", "lang", "voice", "voice_type", "ogg"]

/-- Outcome of one `tts` request: a streamed audio response with its media
type, an `HTTPException` with a status code, or an exception escaping the
handler (the framework turns it into HTTP 500). -/
inductive TtsOutcome where
  | stream : String → List Nat → TtsOutcome
  | httpError : Nat → TtsOutcome
  | uncaught : String → TtsOutcome
deriving DecidableEq, Repr

set_option linter.unusedVariables false in
/-- `routes.tts_endpoint`.  `synth` is the speech-synthesis collaborator
(`Except.error` models `synthesize_speech` raising `AudioAIError`); the
keyword check models Python's call semantics for the
`synthesize_speech(..., voice_type=..., ...)` call. -/
def tts_endpoint (synth : String → String → Option String → Bool → Except String (List Nat))
    (text lang : String) (voice voice_type : Option String) (format_ : String) :
    TtsOutcome :=
  let ogg := pyLower format_ = "ogg"
  if tts_call_keywords.all (fun k => synthesize_speech_params.contains k) then
    match synth text lang voice ogg with
    | Except.ok audio =>
      TtsOutcome.stream (if ogg then "audio/ogg" else "audio/mpeg") audio
    | Except.error _ => TtsOutcome.httpError 502
  else
    TtsOutcome.uncaught
      "TypeError: synthesize_speech() got an unexpected keyword argument"

/-- The wrapped generation call for prompt `p` raises an `AIServiceError`:
either the underlying `generate_content` call raises, or it returns an empty
`resp.text` (which the service also turns into an `AIServiceError`). -/
def gen_call_fails (model : String → Except String String) (p : String) : Prop :=
  match model p with
  | Except.error _ => True
  | Except.ok t => t = ""

/-! ### Substring infrastructure -/

/-- `needle` occurs as a contiguous substring of `hay`. -/
def strContains (hay needle : String) : Prop :=
  ∃ a b : List Char, hay.data = a ++ needle.data ++ b

theorem toList_app (a b : String) : (a ++ b).toList = a.toList ++ b.toList :=
  String.data_append a b

theorem strContains_refl (s : String) : strContains s s :=
  ⟨[], [], by simp⟩

theorem strContains_empty (s : String) : strContains s "" :=
  ⟨[], s.toList, by simp⟩

theorem strContains_appendL {s n : String} (t : String) (h : strContains s n) :
    strContains (s ++ t) n := by
  obtain ⟨a, b, hab⟩ := h
  exact ⟨a, b ++ t.data, by simp [String.data_append, hab]⟩

theorem strContains_appendR {s n : String} (t : String) (h : strContains s n) :
    strContains (t ++ s) n := by
  obtain ⟨a, b, hab⟩ := h
  exact ⟨t.data ++ a, b, by simp [String.data_append, hab]⟩

theorem strContains_iff_chars (hay needle : String) :
    strContains hay needle ↔ needle.toList <:+: hay.toList := by
  constructor
  · rintro ⟨a, b, h⟩; exact ⟨a, b, h.symm⟩
  · rintro ⟨a, b, h⟩; exact ⟨a, b, h.symm⟩

/-! ### Helper lemmas about the store accessors -/

theorem insertDesc_ne_nil (x : String × Nat) (l : List (String × Nat)) :
    insertDesc x l ≠ [] := by
  cases l with
  | nil => simp [insertDesc]
  | cons y ys =>
    simp only [insertDesc]
    split <;> simp

theorem sortDesc_eq_nil_iff (l : List (String × Nat)) :
    sortDesc l = [] ↔ l = [] := by
  cases l with
  | nil => simp [sortDesc]
  | cons x xs => simp [sortDesc, insertDesc_ne_nil]

theorem fetch_new_empty (st : Store) (ts : Nat)
    (h : ∀ c ∈ st.comments, c.2 ≤ ts) :
    fetch_new_comments_after_timestamp st ts 50 = [] := by
  have hf : st.comments.filter (fun r => ts < r.2) = [] := by
    rw [List.filter_eq_nil_iff]
    intro a ha
    simpa using Nat.not_lt.mpr (h a ha)
  simp [fetch_new_comments_after_timestamp, hf, sortDesc]

theorem fetch_new_ne_nil (st : Store) (ts : Nat)
    (h : ∃ c ∈ st.comments, ts < c.2) :
    fetch_new_comments_after_timestamp st ts 50 ≠ [] := by
  obtain ⟨c, hc, hts⟩ := h
  have hf : st.comments.filter (fun r => ts < r.2) ≠ [] := by
    intro hnil
    have hmem : c ∈ st.comments.filter (fun r => ts < r.2) := by
      rw [List.mem_filter]
      exact ⟨hc, by simpa using hts⟩
    rw [hnil] at hmem
    exact absurd hmem (List.not_mem_nil c)
  simp only [fetch_new_comments_after_timestamp, ne_eq, List.map_eq_nil_iff,
    List.take_eq_nil_iff, sortDesc_eq_nil_iff]
  push_neg
  exact ⟨by omega, hf⟩

/-! ### Arithmetic bridges between the integer comparisons in the embedding
and the rational mean/percentage of the claim -/

theorem mean_lt_iff (T n : Nat) (hn : 0 < n) :
    ((T : ℚ) / (n : ℚ) < 15) ↔ T < 15 * n := by
  rw [div_lt_iff₀ (by exact_mod_cast hn : (0 : ℚ) < (n : ℚ))]
  norm_cast

theorem pct_le_iff (S n : Nat) :
    ((7 : ℚ) / 10 * (n : ℚ) ≤ (S : ℚ)) ↔ 7 * n ≤ 10 * S := by
  rw [div_mul_eq_mul_div, div_le_iff₀ (by norm_num : (0 : ℚ) < 10),
    mul_comm (S : ℚ) 10]
  norm_cast

/-- **C6.** The weak-signal predicate `_is_comments_too_short` holds iff the
comment list is empty, or the mean trimmed character length across all
supplied comments is below 15, or the number of comments with two or fewer
whitespace-separated tokens is at least 70% of the list length. -/
theorem too_short_iff_mean_or_mostly_short (cs : List String) :
    _is_comments_too_short cs = true ↔
      cs = []
      ∨ ((cs.map (fun c => (pyStrip c).length)).sum : ℚ) / (cs.length : ℚ) < 15
      ∨ (7 : ℚ) / 10 * (cs.length : ℚ)
          ≤ ((cs.filter (fun c => tokenCount c ≤ 2)).length : ℚ) := by
  cases cs with
  | nil => simp [_is_comments_too_short]
  | cons a l =>
    have hn : 0 < (a :: l).length := by simp
    simp only [_is_comments_too_short, Bool.or_eq_true, decide_eq_true_eq,
      mean_lt_iff _ _ hn, pct_le_iff]
    tauto

/-! ### C10: the timestamp parser is total -/

/-- **C10.** `_parse_ts` never raises: for every input (given that
`datetime.fromisoformat` only ever raises `ValueError` on a `str` argument,
per its documented contract) the function returns normally — with a parsed
datetime or `None`. -/
theorem parse_ts_total {δ : Type} (fromisoformat : String → Except PyExc δ)
    (hvo : ∀ s e, fromisoformat s = Except.error e → ∃ m, e = PyExc.valueError m)
    (value : Option String) :
    ∃ r, _parse_ts fromisoformat value = Except.ok r := by
  have hbody : ∀ v, ∃ r, parse_ts_body fromisoformat v = Except.ok r := by
    intro v
    unfold parse_ts_body
    cases hfv : fromisoformat v with
    | ok dt => exact ⟨some dt, rfl⟩
    | error e =>
      obtain ⟨m, rfl⟩ := hvo v e hfv
      cases hre : tsRegexGroups v with
      | none => exact ⟨parse_ts_fallback fromisoformat v, rfl⟩
      | some g =>
        obtain ⟨base, micro, tz⟩ := g
        cases hfv2 : fromisoformat (base ++ "." ++ ljustZeros6 micro ++ tz) with
        | ok dt => exact ⟨some dt, by simp [hfv2]⟩
        | error e2 =>
          exact ⟨parse_ts_fallback fromisoformat
            (base ++ "." ++ ljustZeros6 micro ++ tz), by simp [hfv2]⟩
  cases value with
  | none => exact ⟨none, rfl⟩
  | some s =>
    by_cases hs : s = ""
    · exact ⟨none, by simp [_parse_ts, hs]⟩
    · obtain ⟨r, hr⟩ := hbody (pyReplace s 'Z' "+00:00")
      exact ⟨r, by simp [_parse_ts, hs, hr]⟩

/-- Witness for C10 at concrete inputs: a collaborator that always raises
`ValueError` and a malformed timestamp string still give a normal return. -/
theorem parse_ts_total_witness :
    ∃ r, _parse_ts (fun _ => Except.error (PyExc.valueError "bad"))
      (some "2025-11-23T10:16:35.60425+00:00") = Except.ok (r : Option Nat) :=
  parse_ts_total (fun _ => Except.error (PyExc.valueError "bad"))
    (fun s e he => by
      refine ⟨"bad", ?_⟩
      simpa using he.symm)
    (some "2025-11-23T10:16:35.60425+00:00")

/-! ### Branch equations for `summarize` -/

theorem summarize_eq_404 (model : String → Except String String)
    (updateOk : Bool) (now : Nat) (st : Store)
    (h1 : st.summaryText = none ∧ st.generatedAt = none) :
    summarize model updateOk now st = ⟨Except.error 404, [], st⟩ := by
  unfold summarize
  rw [if_pos h1]

theorem summarize_eq_insufficient (model : String → Except String String)
    (updateOk : Bool) (now : Nat) (st : Store)
    (hex : ¬(st.summaryText = none ∧ st.generatedAt = none))
    (hinv : has_valid_summary st.summaryText = false)
    (hfew : fetch_comment_count st < 3 ∨ (fetch_latest_comments st 50).length < 3) :
    summarize model updateOk now st = ⟨Except.ok "", [], st⟩ := by
  unfold summarize
  rw [if_neg hex, if_pos hinv]
  by_cases hcount : fetch_comment_count st < 3
  · rw [if_pos hcount]
  · rw [if_neg hcount]
    rcases hfew with h | h
    · exact absurd h hcount
    · rw [if_pos h]

theorem summarize_eq_full_gen (model : String → Except String String)
    (updateOk : Bool) (now : Nat) (st : Store)
    (hex : ¬(st.summaryText = none ∧ st.generatedAt = none))
    (hinv : has_valid_summary st.summaryText = false)
    (h3 : ¬ fetch_comment_count st < 3)
    (h4 : ¬ (fetch_latest_comments st 50).length < 3) :
    summarize model updateOk now st =
      match wrap_ai_response (model (_build_prompt_with_context
          (fetch_latest_comments st 50) (fetch_collection_context st))) with
      | Except.error _ =>
        ⟨Except.error 502,
         [_build_prompt_with_context (fetch_latest_comments st 50)
           (fetch_collection_context st)], st⟩
      | Except.ok u =>
        ⟨Except.ok u,
         [_build_prompt_with_context (fetch_latest_comments st 50)
           (fetch_collection_context st)],
         if updateOk then { st with summaryText := some u, generatedAt := some now }
         else st⟩ := by
  have hne : fetch_latest_comments st 50 ≠ [] := fun hnil => h4 (by simp [hnil])
  unfold summarize
  rw [if_neg hex, if_pos hinv, if_neg h3, if_neg h4]
  unfold generate_summary_async
  rw [if_neg hne]
  cases hw : wrap_ai_response (model (_build_prompt_with_context
      (fetch_latest_comments st 50) (fetch_collection_context st))) <;> simp [hw]

theorem summarize_eq_valid_none (model : String → Except String String)
    (updateOk : Bool) (now : Nat) (st : Store)
    (hex : ¬(st.summaryText = none ∧ st.generatedAt = none))
    (hv : ¬ has_valid_summary st.summaryText = false)
    (hgen : st.generatedAt = none) :
    summarize model updateOk now st = ⟨Except.ok (st.summaryText.getD ""), [], st⟩ := by
  unfold summarize
  rw [if_neg hex, if_neg hv]
  simp only [hgen]

theorem summarize_eq_valid_nonew (model : String → Except String String)
    (updateOk : Bool) (now : Nat) (st : Store) (ts : Nat)
    (hex : ¬(st.summaryText = none ∧ st.generatedAt = none))
    (hv : ¬ has_valid_summary st.summaryText = false)
    (hgen : st.generatedAt = some ts)
    (h5 : fetch_new_comments_after_timestamp st ts 50 = []) :
    summarize model updateOk now st = ⟨Except.ok (st.summaryText.getD ""), [], st⟩ := by
  unfold summarize
  rw [if_neg hex, if_neg hv]
  simp only [hgen]
  rw [if_pos h5]

theorem summarize_eq_incr_gen (model : String → Except String String)
    (updateOk : Bool) (now : Nat) (st : Store) (ts : Nat)
    (hex : ¬(st.summaryText = none ∧ st.generatedAt = none))
    (hv : ¬ has_valid_summary st.summaryText = false)
    (hgen : st.generatedAt = some ts)
    (h5 : ¬ fetch_new_comments_after_timestamp st ts 50 = []) :
    summarize model updateOk now st =
      match wrap_ai_response (model (incremental_prompt (st.summaryText.getD "")
          (fetch_new_comments_after_timestamp st ts 50)
          (fetch_collection_context st))) with
      | Except.error _ =>
        ⟨Except.error 502,
         [incremental_prompt (st.summaryText.getD "")
           (fetch_new_comments_after_timestamp st ts 50)
           (fetch_collection_context st)], st⟩
      | Except.ok u =>
        ⟨Except.ok u,
         [incremental_prompt (st.summaryText.getD "")
           (fetch_new_comments_after_timestamp st ts 50)
           (fetch_collection_context st)],
         if updateOk then { st with summaryText := some u, generatedAt := some now }
         else st⟩ := by
  unfold summarize
  rw [if_neg hex, if_neg hv]
  simp only [hgen]
  rw [if_neg h5]
  unfold generate_incremental_summary_async
  rw [if_neg h5]
  cases hw : wrap_ai_response (model (incremental_prompt (st.summaryText.getD "")
      (fetch_new_comments_after_timestamp st ts 50)
      (fetch_collection_context st))) <;> simp [hw]

/-! ### C1: insufficient data yields the empty summary -/

/-- **C1.** For an existing collection with no usable stored summary, if the
comment count is below 3, or fewer than 3 of the up-to-50 latest fetched
comments carry non-empty text, then `summarize` returns the empty-string
summary, makes no text-generation call, and performs no store mutation. -/
theorem summarize_insufficient_data (model : String → Except String String)
    (updateOk : Bool) (now : Nat) (st : Store)
    (hex : ¬(st.summaryText = none ∧ st.generatedAt = none))
    (hinv : has_valid_summary st.summaryText = false)
    (hfew : fetch_comment_count st < 3 ∨ (fetch_latest_comments st 50).length < 3) :
    (summarize model updateOk now st).response = Except.ok ""
    ∧ (summarize model updateOk now st).genPrompts = []
    ∧ (summarize model updateOk now st).store = st := by
  have heq : summarize model updateOk now st = ⟨Except.ok "", [], st⟩ := by
    unfold summarize
    rw [if_neg hex, if_pos hinv]
    by_cases hcount : fetch_comment_count st < 3
    · rw [if_pos hcount]
    · rw [if_neg hcount]
      rcases hfew with h | h
      · exact absurd h hcount
      · rw [if_pos h]
  rw [heq]
  exact ⟨rfl, rfl, rfl⟩

/-- Witness for C1: a collection whose stored summary is the empty string and
which has a single comment. -/
theorem summarize_insufficient_data_witness :
    (summarize (fun _ => Except.error "no call")
        true 7 ⟨some "", some 5, [("bagus", 1)], none⟩).response = Except.ok ""
    ∧ (summarize (fun _ => Except.error "no call")
        true 7 ⟨some "", some 5, [("bagus", 1)], none⟩).genPrompts = []
    ∧ (summarize (fun _ => Except.error "no call")
        true 7 ⟨some "", some 5, [("bagus", 1)], none⟩).store
      = ⟨some "", some 5, [("bagus", 1)], none⟩ :=
  summarize_insufficient_data (fun _ => Except.error "no call") true 7
    ⟨some "", some 5, [("bagus", 1)], none⟩
    (by simp) (by decide) (Or.inl (by decide))

/-! ### C2 and C8: the cached path -/

/-- The cached path of `summarize` in one equation: valid stored summary and
no comment strictly newer than `summary_generated_at` (or no timestamp at
all) yield the stored text with no generation call and no store change. -/
theorem summarize_cached_eq (model : String → Except String String)
    (updateOk : Bool) (now : Nat) (st : Store) (t : String)
    (ht : st.summaryText = some t)
    (hv : has_valid_summary st.summaryText = true)
    (hfresh : ∀ ts, st.generatedAt = some ts → ∀ c ∈ st.comments, c.2 ≤ ts) :
    summarize model updateOk now st = ⟨Except.ok t, [], st⟩ := by
  have hex : ¬(st.summaryText = none ∧ st.generatedAt = none) := by
    simp [ht]
  unfold summarize
  rw [if_neg hex, if_neg (by simp [hv])]
  cases hgen : st.generatedAt with
  | none => simp [ht]
  | some ts =>
    have hnew := fetch_new_empty st ts (hfresh ts hgen)
    simp [ht, hnew]

/-- **C2.** For a collection with a valid stored summary whose
`summary_generated_at` is absent or not exceeded by any comment,
`summarize` returns the stored text verbatim, makes no generation call and
performs no store mutation. -/
theorem summarize_returns_cached (model : String → Except String String)
    (updateOk : Bool) (now : Nat) (st : Store) (t : String)
    (ht : st.summaryText = some t)
    (hv : has_valid_summary st.summaryText = true)
    (hfresh : ∀ ts, st.generatedAt = some ts → ∀ c ∈ st.comments, c.2 ≤ ts) :
    (summarize model updateOk now st).response = Except.ok t
    ∧ (summarize model updateOk now st).genPrompts = []
    ∧ (summarize model updateOk now st).store = st := by
  rw [summarize_cached_eq model updateOk now st t ht hv hfresh]
  exact ⟨rfl, rfl, rfl⟩

/-- Witness for C2: a collection with a cached summary, one old comment, and
a generation collaborator that would fail if it were ever called. -/
theorem summarize_returns_cached_witness :
    (summarize (fun _ => Except.error "no call")
        true 99 ⟨some "Ringkasan.", some 10, [("lama", 5)], none⟩).response
      = Except.ok "Ringkasan."
    ∧ (summarize (fun _ => Except.error "no call")
        true 99 ⟨some "Ringkasan.", some 10, [("lama", 5)], none⟩).genPrompts = []
    ∧ (summarize (fun _ => Except.error "no call")
        true 99 ⟨some "Ringkasan.", some 10, [("lama", 5)], none⟩).store
      = ⟨some "Ringkasan.", some 10, [("lama", 5)], none⟩ :=
  summarize_returns_cached (fun _ => Except.error "no call") true 99
    ⟨some "Ringkasan.", some 10, [("lama", 5)], none⟩ "Ringkasan."
    rfl (by decide)
    (fun ts hts => by
      cases Option.some.inj hts
      intro c hc
      have hc' : c = ("lama", 5) := by simpa using hc
      simp [hc'])

/-- **C8.** Calling `summarize` twice in immediate succession on a collection
with a valid stored summary and no comment newer than its timestamp — and no
comment inserted between the calls — returns the identical cached text both
times, the first call leaving the store unchanged. -/
theorem summarize_twice_cached (model : String → Except String String)
    (updateOk : Bool) (now now2 : Nat) (st : Store) (t : String)
    (ht : st.summaryText = some t)
    (hv : has_valid_summary st.summaryText = true)
    (hfresh : ∀ ts, st.generatedAt = some ts → ∀ c ∈ st.comments, c.2 ≤ ts) :
    (summarize model updateOk now st).response = Except.ok t
    ∧ (summarize model updateOk now st).store = st
    ∧ (summarize model updateOk now2 (summarize model updateOk now st).store).response
      = Except.ok t := by
  rw [summarize_cached_eq model updateOk now st t ht hv hfresh]
  refine ⟨rfl, rfl, ?_⟩
  rw [summarize_cached_eq model updateOk now2 st t ht hv hfresh]

/-- Witness for C8 at the same concrete collection as the C2 witness, with
two different write instants. -/
theorem summarize_twice_cached_witness :
    (summarize (fun _ => Except.error "no call")
        false 31 ⟨some "Ringkasan.", some 10, [("lama", 5)], none⟩).response
      = Except.ok "Ringkasan."
    ∧ (summarize (fun _ => Except.error "no call")
        false 31 ⟨some "Ringkasan.", some 10, [("lama", 5)], none⟩).store
      = ⟨some "Ringkasan.", some 10, [("lama", 5)], none⟩
    ∧ (summarize (fun _ => Except.error "no call") false 32
        (summarize (fun _ => Except.error "no call")
          false 31 ⟨some "Ringkasan.", some 10, [("lama", 5)], none⟩).store).response
      = Except.ok "Ringkasan." :=
  summarize_twice_cached (fun _ => Except.error "no call") false 31 32
    ⟨some "Ringkasan.", some 10, [("lama", 5)], none⟩ "Ringkasan."
    rfl (by decide)
    (fun ts hts => by
      cases Option.some.inj hts
      intro c hc
      have hc' : c = ("lama", 5) := by simpa using hc
      simp [hc'])

/-! ### C3: incremental regeneration -/

theorem strContains_incr_prev (t : String) (new : List String) (ctx : Option Ctx) :
    strContains (incremental_prompt t new ctx) t := by
  unfold incremental_prompt
  exact strContains_appendL _ (strContains_appendL _ (strContains_appendL _
    (strContains_appendL _ (strContains_appendL _
      (strContains_appendR _ (strContains_refl t))))))

theorem strContains_incr_new (t : String) (new : List String) (ctx : Option Ctx) :
    strContains (incremental_prompt t new ctx) (String.intercalate "\n" new) := by
  unfold incremental_prompt
  exact strContains_appendL _ (strContains_appendL _ (strContains_appendL _
    (strContains_appendR _ (strContains_refl _))))

/-- **C3.** For a collection with a valid stored summary and at least one
comment strictly newer than `summary_generated_at`, `summarize` invokes text
generation with a prompt containing both the previous summary and the
newline-joined fetched new comments; on success (and a successful store
write) the generated text, stripped, replaces the stored summary —
`summary_text` and `summary_generated_at` written together — and is returned
to the caller. -/
theorem summarize_incremental_regen (model : String → Except String String)
    (now : Nat) (st : Store) (t : String) (ts : Nat) (g : String)
    (ht : st.summaryText = some t)
    (hv : has_valid_summary st.summaryText = true)
    (hts : st.generatedAt = some ts)
    (hnew : ∃ c ∈ st.comments, ts < c.2)
    (hg : model (incremental_prompt t (fetch_new_comments_after_timestamp st ts 50)
      (fetch_collection_context st)) = Except.ok g)
    (hg0 : g ≠ "") :
    ∃ p, (summarize model true now st).genPrompts = [p]
      ∧ strContains p t
      ∧ strContains p (String.intercalate "\n"
          (fetch_new_comments_after_timestamp st ts 50))
      ∧ (summarize model true now st).response = Except.ok (pyStrip g)
      ∧ (summarize model true now st).store
        = { st with summaryText := some (pyStrip g), generatedAt := some now } := by
  have hex : ¬(st.summaryText = none ∧ st.generatedAt = none) := by simp [ht]
  have hne := fetch_new_ne_nil st ts hnew
  have heq : summarize model true now st
      = ⟨Except.ok (pyStrip g),
         [incremental_prompt t (fetch_new_comments_after_timestamp st ts 50)
           (fetch_collection_context st)],
         { st with summaryText := some (pyStrip g), generatedAt := some now }⟩ := by
    unfold summarize
    rw [if_neg hex, if_neg (by simp [hv])]
    simp only [hts]
    rw [if_neg hne, ht]
    unfold generate_incremental_summary_async
    rw [if_neg hne]
    simp [wrap_ai_response, hg, hg0]
  rw [heq]
  exact ⟨_, rfl, strContains_incr_prev _ _ _, strContains_incr_new _ _ _, rfl, rfl⟩

/-- Witness for C3: one stale collection with one newer comment and a model
that returns a fresh summary with surrounding whitespace. -/
theorem summarize_incremental_regen_witness :
    ∃ p, (summarize (fun _ => Except.ok " Segar. ") true 9
        ⟨some "Lama.", some 1, [("baru sekali", 2)], none⟩).genPrompts = [p]
      ∧ strContains p "Lama."
      ∧ strContains p (String.intercalate "\n"
          (fetch_new_comments_after_timestamp
            ⟨some "Lama.", some 1, [("baru sekali", 2)], none⟩ 1 50))
      ∧ (summarize (fun _ => Except.ok " Segar. ") true 9
          ⟨some "Lama.", some 1, [("baru sekali", 2)], none⟩).response
        = Except.ok (pyStrip " Segar. ")
      ∧ (summarize (fun _ => Except.ok " Segar. ") true 9
          ⟨some "Lama.", some 1, [("baru sekali", 2)], none⟩).store
        = { (⟨some "Lama.", some 1, [("baru sekali", 2)], none⟩ : Store) with
            summaryText := some (pyStrip " Segar. "), generatedAt := some 9 } :=
  summarize_incremental_regen (fun _ => Except.ok " Segar. ") 9
    ⟨some "Lama.", some 1, [("baru sekali", 2)], none⟩ "Lama." 1 " Segar. "
    rfl (by decide) rfl ⟨("baru sekali", 2), by simp, by decide⟩ rfl (by decide)

/-! ### C4: error statuses -/

theorem gen_call_fails_iff_wrap (model : String → Except String String) (p : String) :
    gen_call_fails model p ↔ ∃ e, wrap_ai_response (model p) = Except.error e := by
  unfold gen_call_fails wrap_ai_response
  cases hm : model p with
  | error e => simp
  | ok t => by_cases ht : t = "" <;> simp [ht]

/-- **C4.** `summarize` fails with 404 exactly when both `summary_text` and
`summary_generated_at` come back absent, fails with 502 exactly when a
text-generation call was made and raised (or returned an empty response,
which the service also raises as `AIServiceError`), and in the 502 case the
stored state is not mutated. -/
theorem summarize_error_statuses (model : String → Except String String)
    (updateOk : Bool) (now : Nat) (st : Store) :
    ((summarize model updateOk now st).response = Except.error 404
      ↔ (st.summaryText = none ∧ st.generatedAt = none))
    ∧ ((summarize model updateOk now st).response = Except.error 502
      ↔ ∃ p, p ∈ (summarize model updateOk now st).genPrompts
          ∧ gen_call_fails model p)
    ∧ ((summarize model updateOk now st).response = Except.error 502
      → (summarize model updateOk now st).store = st) := by
  by_cases h1 : st.summaryText = none ∧ st.generatedAt = none
  · rw [summarize_eq_404 model updateOk now st h1]
    exact ⟨by simp [h1], by simp, fun _ => rfl⟩
  · by_cases h2 : has_valid_summary st.summaryText = false
    · by_cases h3 : fetch_comment_count st < 3
      · rw [summarize_eq_insufficient model updateOk now st h1 h2 (Or.inl h3)]
        exact ⟨iff_of_false (by simp) h1, by simp, fun _ => rfl⟩
      · by_cases h4 : (fetch_latest_comments st 50).length < 3
        · rw [summarize_eq_insufficient model updateOk now st h1 h2 (Or.inr h4)]
          exact ⟨iff_of_false (by simp) h1, by simp, fun _ => rfl⟩
        · rw [summarize_eq_full_gen model updateOk now st h1 h2 h3 h4]
          cases hw : wrap_ai_response (model (_build_prompt_with_context
              (fetch_latest_comments st 50) (fetch_collection_context st))) with
          | error e =>
            refine ⟨iff_of_false (by simp) h1, ?_, fun _ => rfl⟩
            constructor
            · intro _
              exact ⟨_, by simp,
                (gen_call_fails_iff_wrap model _).mpr ⟨e, hw⟩⟩
            · intro _; rfl
          | ok u =>
            refine ⟨iff_of_false (by simp) h1, ?_, fun h => absurd h (by simp)⟩
            apply iff_of_false (by simp)
            rintro ⟨p, hp, hf⟩
            obtain rfl : p = _build_prompt_with_context
                (fetch_latest_comments st 50) (fetch_collection_context st) := by
              simpa using hp
            obtain ⟨e, hwe⟩ := (gen_call_fails_iff_wrap model _).mp hf
            rw [hw] at hwe
            simp at hwe
    · cases hgen : st.generatedAt with
      | none =>
        rw [summarize_eq_valid_none model updateOk now st h1 h2 hgen]
        exact ⟨iff_of_false (by simp) (fun h => h1 ⟨h.1, hgen⟩), by simp,
          fun _ => rfl⟩
      | some ts =>
        by_cases h5 : fetch_new_comments_after_timestamp st ts 50 = []
        · rw [summarize_eq_valid_nonew model updateOk now st ts h1 h2 hgen h5]
          exact ⟨by simp, by simp, fun _ => rfl⟩
        · rw [summarize_eq_incr_gen model updateOk now st ts h1 h2 hgen h5]
          cases hw : wrap_ai_response (model (incremental_prompt
              (st.summaryText.getD "")
              (fetch_new_comments_after_timestamp st ts 50)
              (fetch_collection_context st))) with
          | error e =>
            refine ⟨by simp, ?_, fun _ => rfl⟩
            constructor
            · intro _
              exact ⟨_, by simp,
                (gen_call_fails_iff_wrap model _).mpr ⟨e, hw⟩⟩
            · intro _; rfl
          | ok u =>
            refine ⟨by simp, ?_, fun h => absurd h (by simp)⟩
            apply iff_of_false (by simp)
            rintro ⟨p, hp, hf⟩
            obtain rfl : p = incremental_prompt (st.summaryText.getD "")
                (fetch_new_comments_after_timestamp st ts 50)
                (fetch_collection_context st) := by
              simpa using hp
            obtain ⟨e, hwe⟩ := (gen_call_fails_iff_wrap model _).mp hf
            rw [hw] at hwe
            simp at hwe

/-- Witness for C4: a missing collection yields 404; a failing generation
call on a stale collection leaves the store untouched. -/
theorem summarize_error_statuses_witness :
    (summarize (fun _ => Except.error "boom") true 0
        ⟨none, none, [], none⟩).response = Except.error 404
    ∧ (summarize (fun _ => Except.error "boom") true 0
        ⟨some "Lama.", some 1, [("baru", 2)], none⟩).store
      = ⟨some "Lama.", some 1, [("baru", 2)], none⟩ :=
  ⟨(summarize_error_statuses (fun _ => Except.error "boom") true 0
      ⟨none, none, [], none⟩).1.mpr ⟨rfl, rfl⟩,
   (summarize_error_statuses (fun _ => Except.error "boom") true 0
      ⟨some "Lama.", some 1, [("baru", 2)], none⟩).2.2 rfl⟩

/-! ### C5: persist failure is swallowed -/

/-- **C5.** When generation succeeds but the store write raises, the error is
swallowed: the store is left unchanged, the HTTP response (and the prompts
sent) are identical to what they would have been had the write succeeded,
and whenever a generation call was made whose model reply is a non-empty
text, the caller still receives that freshly generated (stripped) text. -/
theorem summarize_swallows_persist_failure (model : String → Except String String)
    (now : Nat) (st : Store) :
    (summarize model false now st).store = st
    ∧ (summarize model false now st).response = (summarize model true now st).response
    ∧ (summarize model false now st).genPrompts = (summarize model true now st).genPrompts
    ∧ ∀ p g, (summarize model false now st).genPrompts = [p] →
        model p = Except.ok g → g ≠ "" →
        (summarize model false now st).response = Except.ok (pyStrip g) := by
  by_cases h1 : st.summaryText = none ∧ st.generatedAt = none
  · rw [summarize_eq_404 model false now st h1, summarize_eq_404 model true now st h1]
    exact ⟨rfl, rfl, rfl, fun p g hp => by simp at hp⟩
  · by_cases h2 : has_valid_summary st.summaryText = false
    · by_cases h3 : fetch_comment_count st < 3
      · rw [summarize_eq_insufficient model false now st h1 h2 (Or.inl h3),
            summarize_eq_insufficient model true now st h1 h2 (Or.inl h3)]
        exact ⟨rfl, rfl, rfl, fun p g hp => by simp at hp⟩
      · by_cases h4 : (fetch_latest_comments st 50).length < 3
        · rw [summarize_eq_insufficient model false now st h1 h2 (Or.inr h4),
              summarize_eq_insufficient model true now st h1 h2 (Or.inr h4)]
          exact ⟨rfl, rfl, rfl, fun p g hp => by simp at hp⟩
        · rw [summarize_eq_full_gen model false now st h1 h2 h3 h4,
              summarize_eq_full_gen model true now st h1 h2 h3 h4]
          cases hw : wrap_ai_response (model (_build_prompt_with_context
              (fetch_latest_comments st 50) (fetch_collection_context st))) with
          | error e =>
            refine ⟨rfl, rfl, rfl, fun p g hp hmg hg0 => ?_⟩
            obtain rfl : p = _build_prompt_with_context
                (fetch_latest_comments st 50) (fetch_collection_context st) := by
              simpa using hp.symm
            rw [hmg] at hw
            simp [wrap_ai_response, hg0] at hw
          | ok u =>
            refine ⟨by simp, rfl, rfl, fun p g hp hmg hg0 => ?_⟩
            obtain rfl : p = _build_prompt_with_context
                (fetch_latest_comments st 50) (fetch_collection_context st) := by
              simpa using hp.symm
            rw [hmg] at hw
            simp only [wrap_ai_response] at hw
            rw [if_neg hg0] at hw
            obtain rfl : pyStrip g = u := by simpa using hw
            rfl
    · cases hgen : st.generatedAt with
      | none =>
        rw [summarize_eq_valid_none model false now st h1 h2 hgen,
            summarize_eq_valid_none model true now st h1 h2 hgen]
        exact ⟨rfl, rfl, rfl, fun p g hp => by simp at hp⟩
      | some ts =>
        by_cases h5 : fetch_new_comments_after_timestamp st ts 50 = []
        · rw [summarize_eq_valid_nonew model false now st ts h1 h2 hgen h5,
              summarize_eq_valid_nonew model true now st ts h1 h2 hgen h5]
          exact ⟨rfl, rfl, rfl, fun p g hp => by simp at hp⟩
        · rw [summarize_eq_incr_gen model false now st ts h1 h2 hgen h5,
              summarize_eq_incr_gen model true now st ts h1 h2 hgen h5]
          cases hw : wrap_ai_response (model (incremental_prompt
              (st.summaryText.getD "")
              (fetch_new_comments_after_timestamp st ts 50)
              (fetch_collection_context st))) with
          | error e =>
            refine ⟨rfl, rfl, rfl, fun p g hp hmg hg0 => ?_⟩
            obtain rfl : p = incremental_prompt (st.summaryText.getD "")
                (fetch_new_comments_after_timestamp st ts 50)
                (fetch_collection_context st) := by
              simpa using hp.symm
            rw [hmg] at hw
            simp [wrap_ai_response, hg0] at hw
          | ok u =>
            refine ⟨by simp, rfl, rfl, fun p g hp hmg hg0 => ?_⟩
            obtain rfl : p = incremental_prompt (st.summaryText.getD "")
                (fetch_new_comments_after_timestamp st ts 50)
                (fetch_collection_context st) := by
              simpa using hp.symm
            rw [hmg] at hw
            simp only [wrap_ai_response] at hw
            rw [if_neg hg0] at hw
            obtain rfl : pyStrip g = u := by simpa using hw
            rfl

/-- Witness for C5: generation succeeds with a padded reply, the store write
fails; the caller still receives the stripped fresh summary and the store is
unchanged. -/
theorem summarize_swallows_persist_failure_witness :
    (summarize (fun _ => Except.ok " BARU ") false 9
        ⟨some "Lama.", some 1, [("komentar baru", 2)], none⟩).store
      = ⟨some "Lama.", some 1, [("komentar baru", 2)], none⟩
    ∧ (summarize (fun _ => Except.ok " BARU ") false 9
        ⟨some "Lama.", some 1, [("komentar baru", 2)], none⟩).response
      = Except.ok (pyStrip " BARU ") := by
  refine ⟨?_, ?_⟩
  · exact (summarize_swallows_persist_failure (fun _ => Except.ok " BARU ") 9
      ⟨some "Lama.", some 1, [("komentar baru", 2)], none⟩).1
  · exact (summarize_swallows_persist_failure (fun _ => Except.ok " BARU ") 9
      ⟨some "Lama.", some 1, [("komentar baru", 2)], none⟩).2.2.2
      (incremental_prompt "Lama." ["komentar baru"] none) " BARU " rfl rfl (by decide)

/-! ### C9: the TTS endpoint (code bug) -/

/-- **C9** (code evaluated at the failing input): `routes.tts_endpoint`
passes `voice_type=` to `synthesize_speech`, whose parameter list has no
`voice_type`, so the call raises `TypeError`; `except AudioAIError` does not
catch it.  Every request — here shown for any synthesizer, text, language,
voice and format — ends in the uncaught `TypeError` (HTTP 500): the endpoint
never returns the audio stream and never maps a synthesis failure to 502. -/
theorem tts_endpoint_always_typeerror
    (synth : String → String → Option String → Bool → Except String (List Nat))
    (text lang : String) (voice voice_type : Option String) (format_ : String) :
    tts_endpoint synth text lang voice voice_type format_
      = TtsOutcome.uncaught
          "TypeError: synthesize_speech() got an unexpected keyword argument" := by
  have hkw : (tts_call_keywords.all
      (fun k => synthesize_speech_params.contains k)) = false := by decide
  unfold tts_endpoint
  rw [if_neg (by rw [hkw]; exact Bool.false_ne_true)]

/-! ### C7: context notes in the assembled prompts -/

set_option maxRecDepth 10000 in
/-- Counterexample to **C7** as stated: in the incremental path, with
too-short new comments and a context with a non-empty name, the assembled
prompt contains neither the full path's closing instruction nor any wording
about keeping focus on visitor responses (the word "fokus" does not occur in
it), so the context note is not followed by an instruction to use the
context sparingly *while keeping focus on visitor responses*. -/
theorem incremental_prompt_lacks_focus_instruction :
    _is_comments_too_short ["ok"] = true
    ∧ pyStrip "Judul" ≠ ""
    ∧ ¬ strContains
        (incremental_prompt "Lama." ["ok"] (some ⟨"Judul", "Penjelasan"⟩))
        fullCtxInstr
    ∧ ¬ strContains
        (incremental_prompt "Lama." ["ok"] (some ⟨"Judul", "Penjelasan"⟩))
        "fokus" := by
  refine ⟨by decide, by decide, ?_, ?_⟩
  · rw [strContains_iff_chars]
    decide
  · rw [strContains_iff_chars]
    decide

set_option maxRecDepth 10000 in
/-- **C7** (amended).  When the supplied comments are too short and the
context has a non-empty trimmed name or explanation, both paths append a
context note containing the trimmed name and the trimmed explanation
(truncated via `truncate_explanation`, i.e. to its first 200 characters plus
"..." exactly when longer than 200): the full path's note ends with the
instruction to use the context wisely while keeping focus on visitor
responses, while the incremental path places its note before the fixed
closing instruction, whose context guidance says only to use the available
context wisely.  Otherwise no context note is appended. -/
theorem prompt_context_note_spec (comments : List String) (previous : String)
    (cc : Ctx) :
    ((_is_comments_too_short comments = true
        ∧ (pyStrip cc.name ≠ "" ∨ pyStrip cc.artist_explanation ≠ "")) →
      (∃ note,
        _build_prompt_with_context comments (some cc)
          = String.intercalate "\n" comments ++ note
        ∧ strContains note (pyStrip cc.name)
        ∧ strContains note (truncate_explanation (pyStrip cc.artist_explanation))
        ∧ ∃ a, note = a ++ fullCtxInstr)
      ∧ (∃ note,
        incremental_prompt previous comments (some cc)
          = "Ringkasan sebelumnya:\n" ++ previous ++ "\n\nKomentar baru:\n"
              ++ String.intercalate "\n" comments ++ note ++ "\n\n" ++ incrInstr
        ∧ strContains note (pyStrip cc.name)
        ∧ strContains note (truncate_explanation (pyStrip cc.artist_explanation))
        ∧ strContains incrInstr "gunakan konteks yang tersedia dengan bijak"))
    ∧ (¬(_is_comments_too_short comments = true
        ∧ (pyStrip cc.name ≠ "" ∨ pyStrip cc.artist_explanation ≠ "")) →
      _build_prompt_with_context comments (some cc)
        = String.intercalate "\n" comments
      ∧ incremental_prompt previous comments (some cc)
        = "Ringkasan sebelumnya:\n" ++ previous ++ "\n\nKomentar baru:\n"
            ++ String.intercalate "\n" comments ++ "\n\n" ++ incrInstr) := by
  constructor
  · rintro ⟨hshort, hcc⟩
    have hnand : ¬(pyStrip cc.name = "" ∧ pyStrip cc.artist_explanation = "") := by
      tauto
    constructor
    · refine ⟨full_context_note comments (some cc), rfl, ?_, ?_, ?_⟩
      · simp only [full_context_note, if_pos hshort]
        rw [if_neg hnand]
        by_cases hname : pyStrip cc.name = ""
        · rw [hname]
          exact strContains_empty _
        · rw [if_neg hname]
          exact strContains_appendL _ (strContains_appendL _
            (strContains_appendL _ (strContains_appendR _ (strContains_refl _))))
      · simp only [full_context_note, if_pos hshort]
        rw [if_neg hnand]
        by_cases hexp : pyStrip cc.artist_explanation = ""
        · rw [hexp]
          have h0 : truncate_explanation "" = "" := rfl
          rw [h0]
          exact strContains_empty _
        · rw [if_neg hexp]
          exact strContains_appendL _ (strContains_appendR _
            (strContains_appendR _ (strContains_refl _)))
      · simp only [full_context_note, if_pos hshort]
        rw [if_neg hnand]
        exact ⟨_, rfl⟩
    · refine ⟨incremental_note comments (some cc), rfl, ?_, ?_, ?_⟩
      · simp only [incremental_note, if_pos hshort]
        rw [if_neg hnand]
        by_cases hname : pyStrip cc.name = ""
        · rw [hname]
          exact strContains_empty _
        · rw [if_neg hname]
          exact strContains_appendL _ (strContains_appendR _
            (strContains_appendL _ (strContains_appendR _ (strContains_refl _))))
      · simp only [incremental_note, if_pos hshort]
        rw [if_neg hnand]
        by_cases hexp : pyStrip cc.artist_explanation = ""
        · rw [hexp]
          have h0 : truncate_explanation "" = "" := rfl
          rw [h0]
          exact strContains_empty _
        · rw [if_neg hexp]
          exact strContains_appendR _ (strContains_appendR _ (strContains_refl _))
      · rw [strContains_iff_chars]
        decide
  · intro hn
    constructor
    · unfold _build_prompt_with_context
      suffices h : full_context_note comments (some cc) = "" by rw [h]; simp
      by_cases hshort : _is_comments_too_short comments = true
      · have hboth : pyStrip cc.name = "" ∧ pyStrip cc.artist_explanation = "" := by
          have hor : ¬(pyStrip cc.name ≠ "" ∨ pyStrip cc.artist_explanation ≠ "") :=
            fun hor => hn ⟨hshort, hor⟩
          push_neg at hor
          exact hor
        simp only [full_context_note, if_pos hshort]
        rw [if_pos hboth]
      · unfold full_context_note
        rw [if_neg hshort]
    · unfold incremental_prompt
      suffices h : incremental_note comments (some cc) = "" by rw [h]; simp
      by_cases hshort : _is_comments_too_short comments = true
      · have hboth : pyStrip cc.name = "" ∧ pyStrip cc.artist_explanation = "" := by
          have hor : ¬(pyStrip cc.name ≠ "" ∨ pyStrip cc.artist_explanation ≠ "") :=
            fun hor => hn ⟨hshort, hor⟩
          push_neg at hor
          exact hor
        simp only [incremental_note, if_pos hshort]
        rw [if_pos hboth]
      · unfold incremental_note
        rw [if_neg hshort]

/-- Witness for the amended C7 at a concrete too-short comment list and
context. -/
theorem prompt_context_note_spec_witness :
    (∃ note,
      _build_prompt_with_context ["ok"] (some ⟨"Judul", "Penjelasan"⟩)
        = String.intercalate "\n" ["ok"] ++ note
      ∧ strContains note (pyStrip "Judul")
      ∧ strContains note (truncate_explanation (pyStrip "Penjelasan"))
      ∧ ∃ a, note = a ++ fullCtxInstr)
    ∧ (∃ note,
      incremental_prompt "Lama." ["ok"] (some ⟨"Judul", "Penjelasan"⟩)
        = "Ringkasan sebelumnya:\n" ++ "Lama." ++ "\n\nKomentar baru:\n"
            ++ String.intercalate "\n" ["ok"] ++ note ++ "\n\n" ++ incrInstr
      ∧ strContains note (pyStrip "Judul")
      ∧ strContains note (truncate_explanation (pyStrip "Penjelasan"))
      ∧ strContains incrInstr "gunakan konteks yang tersedia dengan bijak") :=
  (prompt_context_note_spec ["ok"] "Lama." ⟨"Judul", "Penjelasan"⟩).1
    ⟨by decide, Or.inl (by decide)⟩

end SwarasanaAI
